import Mathlib

/-!
Shallow embedding of the role-based pricing, wholesale-eligibility,
soft-delete lifecycle, access-control and role-validation core of the
capital-trading Django backend.

Conventions used throughout:
* Django's stored role is a free-form string (`users/models.py`,
  `UserTypes`); roles are therefore modelled as `String` constants and
  compared by string equality, exactly as the Python code does.
* Monetary amounts are decimals with two fraction digits
  (`DecimalField(decimal_places=2)`); they are modelled as `Int`
  (amounts in hundredths), which preserves every order comparison the
  code performs.
* Timestamps (`timezone.now()`) are opaque to the logic; they are
  modelled as `Nat` values passed in explicitly.
* `None`-able Python values (`deleted_at`, nullable char fields,
  missing keys of a partial payload) are modelled as `Option`.
* A Django queryset backed by a table is modelled as a `List` of
  records; `filter`, `first()` and `get(...)` become `List.filter` and
  `List.find?`.  The services return the updated table next to the
  optional error string, mirroring `save()` against the store.
-/

namespace CTB

-- Role constants, from `users/models.py` class `UserTypes`.
namespace UserTypes

def ADMIN : String := "admin"

def B2C_VISITOR : String := "b2c_visitor"

def CORPORATE : String := "corporate"

def HORECA : String := "horeca"

def SUPPLIER : String := "supplier"

def SUPPLIER_MERCHANT : String := "supplier_merchant"

def STORAGE_CLIENT : String := "storage_client"

end UserTypes

/-- The fields of `users/models.py` `User` that the modelled logic reads or
writes.  `id` is the internal sequential key, `user_id` the public opaque
identifier (UUID, modelled as `Nat`).  Profile fields that no modelled
branch inspects (email, names, phone, address, password/OTP data,
`is_staff`, `is_verified`) are omitted. -/
structure User where
  id : Nat
  user_id : Nat
  role : String
  company_name : Option String
  business_type : Option String
  is_active : Bool
  is_deleted : Bool
  deleted_at : Option Nat
deriving DecidableEq

/-- The fields of `products/models.py` `Product` that the modelled logic
reads or writes.  `supplier` holds the owning user's internal `id` (the
FK target); display-only fields (names, descriptions, images, unit data,
category, stock, timestamps) are omitted. -/
structure Product where
  id : Nat
  end_user_price : Int
  retail_price_b2c : Int
  retail_price_corporate : Int
  retail_price_horeca : Int
  wholesale_price : Int
  wholesale_min_quantity : Nat
  is_available : Bool
  supplier : Nat
  is_deleted : Bool
  deleted_at : Option Nat
deriving DecidableEq

/-- Return type of `Product.get_price_for_user`: the Python method returns
either a single decimal or, for admins, a dict of all five amounts plus
the wholesale minimum quantity. -/
inductive PriceView where
  | amount (value : Int)
  | allPrices (end_user_price retail_price_b2c retail_price_corporate
      retail_price_horeca wholesale_price : Int)
      (wholesale_min_quantity : Nat)
deriving DecidableEq

/-- Model of `products/models.py` lines 109-146, `Product.get_price_for_user`.
The `user` argument is `none` when `not user or not user.is_authenticated`
holds in Python (missing or unauthenticated request user). -/
def Product.get_price_for_user (p : Product) (user : Option User) : PriceView :=
  match user with
  | none => .amount p.end_user_price
  | some u =>
    if u.role = UserTypes.ADMIN then
      .allPrices p.end_user_price p.retail_price_b2c p.retail_price_corporate
        p.retail_price_horeca p.wholesale_price p.wholesale_min_quantity
    else if u.role = UserTypes.B2C_VISITOR then .amount p.end_user_price
    else if u.role = UserTypes.CORPORATE then .amount p.retail_price_corporate
    else if u.role = UserTypes.HORECA then .amount p.retail_price_horeca
    else if u.role = UserTypes.SUPPLIER then .amount p.wholesale_price
    else if u.role = UserTypes.SUPPLIER_MERCHANT then .amount p.wholesale_price
    else if u.role = UserTypes.STORAGE_CLIENT then .amount p.retail_price_corporate
    else .amount p.end_user_price

/-- Model of `products/models.py` lines 167-173, `Product.is_wholesale_eligible`:
membership test of the role in `[SUPPLIER, SUPPLIER_MERCHANT, CORPORATE]`,
then `quantity >= self.wholesale_min_quantity`. -/
def Product.is_wholesale_eligible (p : Product) (u : User) (quantity : Nat) : Bool :=
  if u.role = UserTypes.SUPPLIER ∨ u.role = UserTypes.SUPPLIER_MERCHANT ∨
      u.role = UserTypes.CORPORATE then
    decide (quantity ≥ p.wholesale_min_quantity)
  else
    false

/-- Model of `products/models.py` lines 175-181, `Product.soft_delete`: sets the
three fields unconditionally (there is no already-deleted guard) and
saves. -/
def Product.soft_delete (p : Product) (now : Nat) : Product :=
  { p with is_deleted := true, deleted_at := some now, is_available := false }

/-- Model of `products/models.py` lines 183-188, `Product.restore`: clears the three
fields unconditionally and saves. -/
def Product.restore (p : Product) : Product :=
  { p with is_deleted := false, deleted_at := none, is_available := true }

/-- Model of `users/models.py` lines 178-184, `User.soft_delete`. -/
def User.soft_delete (u : User) (now : Nat) : User :=
  { u with is_deleted := true, deleted_at := some now, is_active := false }

/-- Model of `users/models.py` lines 190-195, `User.restore`. -/
def User.restore (u : User) : User :=
  { u with is_deleted := false, deleted_at := none, is_active := true }

/-- Model of `users/models.py` lines 36-38, `UserManager.get_queryset`: the default
manager queryset keeps only rows with `is_deleted=False`. -/
def UserManager.get_queryset (db : List User) : List User :=
  db.filter (fun u => !u.is_deleted)

/-- Model of `users/models.py` lines 40-42, `UserManager.all_with_deleted`. -/
def UserManager.all_with_deleted (db : List User) : List User :=
  db

/-- Model of `users/repository/repository.py` lines 24-39, `UserRepository.get_by_id`:
`User.objects.get(user_id=user_id)` runs against the default manager
queryset, so soft-deleted rows are invisible and yield `None` via
`DoesNotExist`.  (The UUID-format pre-check always passes here because the
identifier is already structured.) -/
def UserRepository.get_by_id (db : List User) (uid : Nat) : Option User :=
  (UserManager.get_queryset db).find? (fun u => u.user_id == uid)

/-- Python truthiness of an optional string: `None` and `""` are falsy. -/
def pyBlank : Option String → Bool
  | none => true
  | some s => s == ""

/-- The field assignments `setattr(user, field, value)` performed when a
(partial) user-update payload is saved, restricted to the three payload
fields the modelled validation logic can read (`role`, `company_name`,
`business_type`); a `none` payload entry means the key was absent from the
request and the stored value is kept. -/
def applyUserUpdate (u : User) (role company business : Option String) : User :=
  { u with
    role := role.getD u.role,
    company_name := match company with | some c => some c | none => u.company_name,
    business_type := match business with | some b => some b | none => u.business_type }

/-- Model of `users/serializers.py` lines 22-39, `UserRegisterSerializer.validate`:
`attrs.get('role', UserTypes.B2C_VISITOR)`, then the corporate
company-name rule and the business-type rule (raising stops at the first
violated rule). -/
def UserRegisterSerializer.validate (role company_name business_type : Option String) :
    Option String :=
  let r := role.getD UserTypes.B2C_VISITOR
  if r = UserTypes.CORPORATE ∧ pyBlank company_name then
    some "Corporate users must provide a company name."
  else if (r = UserTypes.HORECA ∨ r = UserTypes.SUPPLIER ∨
      r = UserTypes.SUPPLIER_MERCHANT) ∧ pyBlank business_type then
    some "users must provide a business type."
  else
    none

/-- Model of `users/serializers.py` lines 120-139, `UserUpdateSerializer.validate`
(partial update): validation runs only when a truthy `role` is in the
payload, and a blank payload field is an error only when the stored
instance field is blank too. -/
def UserUpdateSerializer.validate (inst : User)
    (role company_name business_type : Option String) : Option String :=
  if pyBlank role then
    none
  else
    let r := role.getD ""
    if r = UserTypes.CORPORATE ∧ pyBlank company_name ∧ pyBlank inst.company_name then
      some "Corporate users must provide a company name."
    else if (r = UserTypes.HORECA ∨ r = UserTypes.SUPPLIER ∨
        r = UserTypes.SUPPLIER_MERCHANT) ∧ pyBlank business_type ∧
        pyBlank inst.business_type then
      some "users must provide a business type."
    else
      none

/-- Model of `users/serializers.py` lines 149-153, `UserRoleSerializer.validate_role`:
rejects any role change when the bound instance is an admin.  (No view in
the repository instantiates this serializer.) -/
def UserRoleSerializer.validate_role (inst : Option User) (_value : String) :
    Option String :=
  match inst with
  | some u =>
    if u.role = UserTypes.ADMIN then some "Cannot change admin user role."
    else none
  | none => none

/-- Outcome of the user patch endpoint. -/
inductive UpdateResult where
  | notFound
  | validationError (msg : String)
  | updated (u : User)
deriving DecidableEq

/-- Model of `users/views.py` lines 218-224, `UserViewSet.partial_update` (named
`patch_update` here only because of a lexical restriction of this
development): `get_object` resolves the target through the default
manager queryset (`UserViewSet.queryset = User.objects.all()`, which the
custom manager filters to `is_deleted=False`), then validates with
`UserUpdateSerializer(user, data, partial=True)` and saves. -/
def UserViewSet.patch_update (db : List User) (uid : Nat)
    (role company business : Option String) : UpdateResult :=
  match (UserManager.get_queryset db).find? (fun u => u.user_id == uid) with
  | none => .notFound
  | some user =>
    match UserUpdateSerializer.validate user role company business with
    | some msg => .validationError msg
    | none => .updated (applyUserUpdate user role company business)

/-- Model of `users/services/user_delete_service.py` lines 17-39,
`UserDeleteService.soft_delete`.  Returns the (possibly updated) store and
the optional error string. -/
def UserDeleteService.soft_delete (db : List User) (uid : Nat) (now : Nat) :
    List User × Option String :=
  match UserRepository.get_by_id db uid with
  | none => (db, some "User not found")
  | some user =>
    if user.is_deleted then (db, some "User is already deleted")
    else (db.map (fun v => if v.user_id == uid then User.soft_delete v now else v), none)

/-- Model of `users/services/user_delete_service.py` lines 41-60,
`UserDeleteService.hard_delete`: resolves through `get_by_id`, then
removes the row. -/
def UserDeleteService.hard_delete (db : List User) (uid : Nat) :
    List User × Option String :=
  match UserRepository.get_by_id db uid with
  | none => (db, some "User not found")
  | some _ => (db.filter (fun v => !(v.user_id == uid)), none)

/-- Model of `users/services/user_delete_service.py` lines 62-85,
`UserDeleteService.restore`: looks the target up through
`User.objects.all_with_deleted().filter(user_id=...).first()`, so
soft-deleted rows are visible; rejects a non-deleted target. -/
def UserDeleteService.restore (db : List User) (uid : Nat) :
    List User × Option String :=
  match (UserManager.all_with_deleted db).find? (fun u => u.user_id == uid) with
  | none => (db, some "User not found")
  | some user =>
    if !user.is_deleted then (db, some "User is not deleted")
    else (db.map (fun v => if v.user_id == uid then User.restore v else v), none)

/-- Model of `users/services/user_update_service.py` lines 7-15,
`UserUpdateService.update`: resolves through `get_by_id`, then applies the
payload fields and saves (no validation of its own). -/
def UserUpdateService.update (db : List User) (uid : Nat)
    (role company business : Option String) : List User × Option String :=
  match UserRepository.get_by_id db uid with
  | none => (db, some "User not found.")
  | some _ =>
    (db.map (fun v => if v.user_id == uid then applyUserUpdate v role company business else v),
      none)

/-- Model of `users/services/user_activation_service.py` lines 15-21,
`UserActivationService.deactivate`: resolves through `get_by_id`, then
sets `is_active=False` and saves. -/
def UserActivationService.deactivate (db : List User) (uid : Nat) :
    List User × Option String :=
  match UserRepository.get_by_id db uid with
  | none => (db, some "User not found.")
  | some _ =>
    (db.map (fun v => if v.user_id == uid then { v with is_active := false } else v), none)

/-- Model of `products/serializers.py` lines 84-103, `ProductCreateSerializer.validate`
with a request user present: the requester must be a supplier, and
`wholesale_price > min(retail_price_b2c, retail_price_corporate,
retail_price_horeca)` is rejected.  All five price fields are required on
creation, so they are always present in `attrs`. -/
def ProductCreateSerializer.validate (role : String)
    (wholesale_price retail_price_b2c retail_price_corporate retail_price_horeca : Int) :
    Option String :=
  if ¬(role = UserTypes.SUPPLIER ∨ role = UserTypes.SUPPLIER_MERCHANT) then
    some "Only suppliers can create products"
  else if wholesale_price > min retail_price_b2c (min retail_price_corporate retail_price_horeca) then
    some "Wholesale price should be lower than retail prices"
  else
    none

/-- Model of `products/serializers.py` lines 125-140, `ProductUpdateSerializer.validate`
(partial update against an existing instance): each price read falls back
to the instance value when the key is absent from the payload
(`attrs.get(field, instance.field)`). -/
def ProductUpdateSerializer.validate (inst : Product)
    (wholesale_price retail_price_b2c retail_price_corporate retail_price_horeca : Option Int) :
    Option String :=
  let w := wholesale_price.getD inst.wholesale_price
  let r1 := retail_price_b2c.getD inst.retail_price_b2c
  let r2 := retail_price_corporate.getD inst.retail_price_corporate
  let r3 := retail_price_horeca.getD inst.retail_price_horeca
  if w > min r1 (min r2 r3) then
    some "Wholesale price should be lower than retail prices"
  else
    none

/-- Model of `products/views.py` lines 169-171, the deny condition of
`ProductViewSet.update` (the request user is authenticated here, forced
by `IsAuthenticated`): denied when the role is outside
`[SUPPLIER, SUPPLIER_MERCHANT, ADMIN]`, or when a supplier-role user acts
on a product whose `supplier` FK is a different user. -/
def ProductViewSet.updateDenied (u : User) (p : Product) : Bool :=
  !(u.role = UserTypes.SUPPLIER ∨ u.role = UserTypes.SUPPLIER_MERCHANT ∨
      u.role = UserTypes.ADMIN) ||
  ((u.role = UserTypes.SUPPLIER ∨ u.role = UserTypes.SUPPLIER_MERCHANT) &&
      !(p.supplier == u.id))

/-- Model of `products/views.py` lines 190-192, the deny condition of
`ProductViewSet.destroy` (textually the same condition as for update). -/
def ProductViewSet.destroyDenied (u : User) (p : Product) : Bool :=
  !(u.role = UserTypes.SUPPLIER ∨ u.role = UserTypes.SUPPLIER_MERCHANT ∨
      u.role = UserTypes.ADMIN) ||
  ((u.role = UserTypes.SUPPLIER ∨ u.role = UserTypes.SUPPLIER_MERCHANT) &&
      !(p.supplier == u.id))

/-- Model of `products/views.py` lines 63-112, `ProductViewSet.get_queryset`,
restricted to the filters that are always active: `is_deleted=False`
and, unless the request carries `available_only=false`,
`is_available=True`.  The optional category/supplier/price query-param
filters are absent in the modelled requests. -/
def ProductViewSet.get_queryset (db : List Product) (availableOnly : Bool) :
    List Product :=
  db.filter (fun p => !p.is_deleted && (!availableOnly || p.is_available))

/-- DRF `get_object` over `ProductViewSet.get_queryset`, looking up by the
`id` lookup field. -/
def ProductViewSet.get_object (db : List Product) (pid : Nat) (availableOnly : Bool) :
    Option Product :=
  (ProductViewSet.get_queryset db availableOnly).find? (fun p => p.id == pid)

/-- Outcome of the admin product-restore endpoint. -/
inductive RestoreResult where
  | forbidden
  | notFound
  | notDeleted
  | restored (p : Product)
deriving DecidableEq

/-- Model of `products/views.py` lines 319-336, `ProductViewSet.restore`: a 403 for
non-admins, then `get_object` (over the `is_deleted=False` queryset),
then a 400 for a non-deleted target, else `product.restore()`. -/
def ProductViewSet.restore (db : List Product) (u : User) (pid : Nat)
    (availableOnly : Bool) : RestoreResult :=
  if u.role ≠ UserTypes.ADMIN then .forbidden
  else
    match ProductViewSet.get_object db pid availableOnly with
    | none => .notFound
    | some product =>
      if !product.is_deleted then .notDeleted
      else .restored (Product.restore product)

/-! ### Concrete sample records used by witnesses and counterexamples -/

/-- The spec's §8 scenario price set (b2c and corporate amounts chosen
consistently with the wholesale invariant). -/
def sampleProduct : Product :=
  { id := 1, end_user_price := 150, retail_price_b2c := 140,
    retail_price_corporate := 138, retail_price_horeca := 135,
    wholesale_price := 125, wholesale_min_quantity := 20,
    is_available := true, supplier := 7, is_deleted := false, deleted_at := none }

def sampleAdmin : User :=
  { id := 1, user_id := 11, role := UserTypes.ADMIN, company_name := none,
    business_type := none, is_active := true, is_deleted := false, deleted_at := none }

def sampleHoreca : User :=
  { id := 2, user_id := 22, role := UserTypes.HORECA, company_name := none,
    business_type := some "restaurant", is_active := true, is_deleted := false,
    deleted_at := none }

def sampleCorporate : User :=
  { id := 3, user_id := 33, role := UserTypes.CORPORATE, company_name := some "Acme",
    business_type := none, is_active := true, is_deleted := false, deleted_at := none }

def sampleSupplier : User :=
  { id := 7, user_id := 77, role := UserTypes.SUPPLIER, company_name := none,
    business_type := some "farm", is_active := true, is_deleted := false,
    deleted_at := none }

/-- A persisted role value outside the closed enum (the column is a free
string). -/
def strangeRoleUser : User :=
  { id := 9, user_id := 99, role := "frontend", company_name := none,
    business_type := none, is_active := true, is_deleted := false, deleted_at := none }

/-- A soft-deleted product owned by supplier 7. -/
def deletedProduct : Product :=
  { id := 2, end_user_price := 150, retail_price_b2c := 140,
    retail_price_corporate := 138, retail_price_horeca := 135,
    wholesale_price := 125, wholesale_min_quantity := 20,
    is_available := false, supplier := 7, is_deleted := true, deleted_at := some 5 }

/-- A product owned by a different supplier (user id 8). -/
def otherSuppliersProduct : Product :=
  { id := 3, end_user_price := 150, retail_price_b2c := 140,
    retail_price_corporate := 138, retail_price_horeca := 135,
    wholesale_price := 125, wholesale_min_quantity := 20,
    is_available := true, supplier := 8, is_deleted := false, deleted_at := none }

/-- A soft-deleted user. -/
def deletedUser : User :=
  { id := 5, user_id := 55, role := UserTypes.B2C_VISITOR, company_name := none,
    business_type := none, is_active := false, is_deleted := true, deleted_at := some 4 }

/-- A deactivated (but not soft-deleted) user, as produced by the
`deactivate` endpoint. -/
def deactivatedUser : User :=
  { id := 6, user_id := 66, role := UserTypes.B2C_VISITOR, company_name := none,
    business_type := none, is_active := false, is_deleted := false, deleted_at := none }

/-- A corporate user whose stored profile lacks both role-specific fields. -/
def bareCorporate : User :=
  { id := 8, user_id := 88, role := UserTypes.CORPORATE, company_name := none,
    business_type := none, is_active := true, is_deleted := false, deleted_at := none }

/-! ### Helper lemmas shared by several claims -/

/-- Any user resolved through `UserRepository.get_by_id` is non-deleted,
because the default manager queryset filters `is_deleted=False`. -/
lemma get_by_id_not_deleted {db : List User} {uid : Nat} {u : User}
    (h : UserRepository.get_by_id db uid = some u) : u.is_deleted = false := by
  unfold UserRepository.get_by_id UserManager.get_queryset at h
  have hm := List.mem_of_find?_eq_some h
  rw [List.mem_filter] at hm
  simpa using hm.2

/-- When every row carrying the requested `user_id` is soft-deleted, the
repository lookup over the default queryset comes back empty. -/
lemma get_by_id_none_of_all_deleted {db : List User} {uid : Nat}
    (h : ∀ v ∈ db, v.user_id = uid → v.is_deleted = true) :
    UserRepository.get_by_id db uid = none := by
  unfold UserRepository.get_by_id UserManager.get_queryset
  rw [List.find?_eq_none]
  intro v hv
  rw [List.mem_filter] at hv
  intro hbeq
  have huid : v.user_id = uid := by simpa using hbeq
  have hdel := h v hv.1 huid
  have hnd : v.is_deleted = false := by simpa using hv.2
  rw [hdel] at hnd
  exact Bool.noConfusion hnd

/-- Any product resolved through the product viewset's `get_object` is
non-deleted, because `get_queryset` filters `is_deleted=False`. -/
lemma get_object_not_deleted {db : List Product} {pid : Nat} {ao : Bool} {p : Product}
    (h : ProductViewSet.get_object db pid ao = some p) : p.is_deleted = false := by
  unfold ProductViewSet.get_object ProductViewSet.get_queryset at h
  have hm := List.mem_of_find?_eq_some h
  rw [List.mem_filter] at hm
  have := hm.2
  simp only [Bool.and_eq_true, Bool.not_eq_true'] at this
  exact this.1

/-! ### Claims -/

/-- C1: `get_price_for_user` returns, for every product price set and every
role, exactly the amount the spec's table selects — `end_user_price` for
unauthenticated, B2CVisitor and any unrecognized role; the corporate
retail price for Corporate and StorageClient; the HoReCa retail price for
HoReCa; the wholesale price for Supplier and SupplierMerchant — and for
Admin all five amounts unchanged plus `wholesale_min_quantity`.  The
function is total, hence never fails on any role value. -/
theorem get_price_for_user_matches_role_table (p : Product) (u : User) :
    Product.get_price_for_user p none = PriceView.amount p.end_user_price
    ∧ (u.role = UserTypes.ADMIN →
        Product.get_price_for_user p (some u) =
          PriceView.allPrices p.end_user_price p.retail_price_b2c
            p.retail_price_corporate p.retail_price_horeca p.wholesale_price
            p.wholesale_min_quantity)
    ∧ (u.role = UserTypes.B2C_VISITOR →
        Product.get_price_for_user p (some u) = PriceView.amount p.end_user_price)
    ∧ (u.role = UserTypes.CORPORATE →
        Product.get_price_for_user p (some u) = PriceView.amount p.retail_price_corporate)
    ∧ (u.role = UserTypes.HORECA →
        Product.get_price_for_user p (some u) = PriceView.amount p.retail_price_horeca)
    ∧ (u.role = UserTypes.SUPPLIER →
        Product.get_price_for_user p (some u) = PriceView.amount p.wholesale_price)
    ∧ (u.role = UserTypes.SUPPLIER_MERCHANT →
        Product.get_price_for_user p (some u) = PriceView.amount p.wholesale_price)
    ∧ (u.role = UserTypes.STORAGE_CLIENT →
        Product.get_price_for_user p (some u) = PriceView.amount p.retail_price_corporate)
    ∧ (u.role ≠ UserTypes.ADMIN → u.role ≠ UserTypes.B2C_VISITOR →
        u.role ≠ UserTypes.CORPORATE → u.role ≠ UserTypes.HORECA →
        u.role ≠ UserTypes.SUPPLIER → u.role ≠ UserTypes.SUPPLIER_MERCHANT →
        u.role ≠ UserTypes.STORAGE_CLIENT →
        Product.get_price_for_user p (some u) = PriceView.amount p.end_user_price) := by
  refine ⟨rfl, ?_, ?_, ?_, ?_, ?_, ?_, ?_, ?_⟩
  all_goals intro h
  · simp [Product.get_price_for_user, h]
  · simp [Product.get_price_for_user, h, UserTypes.ADMIN, UserTypes.B2C_VISITOR]
  · simp [Product.get_price_for_user, h, UserTypes.ADMIN, UserTypes.B2C_VISITOR,
      UserTypes.CORPORATE]
  · simp [Product.get_price_for_user, h, UserTypes.ADMIN, UserTypes.B2C_VISITOR,
      UserTypes.CORPORATE, UserTypes.HORECA]
  · simp [Product.get_price_for_user, h, UserTypes.ADMIN, UserTypes.B2C_VISITOR,
      UserTypes.CORPORATE, UserTypes.HORECA, UserTypes.SUPPLIER]
  · simp [Product.get_price_for_user, h, UserTypes.ADMIN, UserTypes.B2C_VISITOR,
      UserTypes.CORPORATE, UserTypes.HORECA, UserTypes.SUPPLIER,
      UserTypes.SUPPLIER_MERCHANT]
  · simp [Product.get_price_for_user, h, UserTypes.ADMIN, UserTypes.B2C_VISITOR,
      UserTypes.CORPORATE, UserTypes.HORECA, UserTypes.SUPPLIER,
      UserTypes.SUPPLIER_MERCHANT, UserTypes.STORAGE_CLIENT]
  · intro h2 h3 h4 h5 h6 h7
    simp [Product.get_price_for_user, h, h2, h3, h4, h5, h6, h7]

/-- C1 witness: the theorem evaluated at the spec's §8 scenario product for
a HoReCa user, an admin, and a user with an out-of-enum role. -/
theorem get_price_for_user_matches_role_table_witness :
    Product.get_price_for_user sampleProduct (some sampleHoreca) = PriceView.amount 135
    ∧ Product.get_price_for_user sampleProduct (some sampleAdmin) =
        PriceView.allPrices 150 140 138 135 125 20
    ∧ Product.get_price_for_user sampleProduct (some strangeRoleUser) =
        PriceView.amount 150 := by
  refine ⟨?_, ?_, ?_⟩
  · exact (get_price_for_user_matches_role_table sampleProduct sampleHoreca).2.2.2.2.1 rfl
  · exact (get_price_for_user_matches_role_table sampleProduct sampleAdmin).2.1 rfl
  · exact (get_price_for_user_matches_role_table sampleProduct strangeRoleUser).2.2.2.2.2.2.2.2
      (by decide) (by decide) (by decide) (by decide) (by decide) (by decide) (by decide)

/-- C2: `is_wholesale_eligible` is true exactly for the roles Supplier,
SupplierMerchant and Corporate with `quantity >= wholesale_min_quantity`;
it is true at the boundary `quantity = minimum`, false one below it
(for a positive minimum), and false for every other role regardless of
quantity. -/
theorem is_wholesale_eligible_characterisation (p : Product) (u : User) (q : Nat) :
    (p.is_wholesale_eligible u q = true ↔
      ((u.role = UserTypes.SUPPLIER ∨ u.role = UserTypes.SUPPLIER_MERCHANT ∨
          u.role = UserTypes.CORPORATE) ∧ q ≥ p.wholesale_min_quantity))
    ∧ ((u.role = UserTypes.SUPPLIER ∨ u.role = UserTypes.SUPPLIER_MERCHANT ∨
          u.role = UserTypes.CORPORATE) →
        p.is_wholesale_eligible u p.wholesale_min_quantity = true)
    ∧ (0 < p.wholesale_min_quantity →
        (u.role = UserTypes.SUPPLIER ∨ u.role = UserTypes.SUPPLIER_MERCHANT ∨
          u.role = UserTypes.CORPORATE) →
        p.is_wholesale_eligible u (p.wholesale_min_quantity - 1) = false)
    ∧ (¬(u.role = UserTypes.SUPPLIER ∨ u.role = UserTypes.SUPPLIER_MERCHANT ∨
          u.role = UserTypes.CORPORATE) →
        p.is_wholesale_eligible u q = false) := by
  refine ⟨?_, ?_, ?_, ?_⟩
  · unfold Product.is_wholesale_eligible
    split
    · rename_i hrole
      simp [hrole]
    · rename_i hrole
      simp [hrole]
  · intro hrole
    simp [Product.is_wholesale_eligible, hrole]
  · intro hpos hrole
    simp only [Product.is_wholesale_eligible, if_pos hrole]
    simp only [decide_eq_false_iff_not, ge_iff_le, not_le]
    omega
  · intro hrole
    simp [Product.is_wholesale_eligible, hrole]

/-- C2 witness: the theorem evaluated at the spec's §8 scenario
(minimum 20): a supplier at quantity 20 and 19, and the HoReCa role at
quantity 20. -/
theorem is_wholesale_eligible_characterisation_witness :
    sampleProduct.is_wholesale_eligible sampleSupplier 20 = true
    ∧ sampleProduct.is_wholesale_eligible sampleSupplier 19 = false
    ∧ sampleProduct.is_wholesale_eligible sampleHoreca 20 = false := by
  refine ⟨?_, ?_, ?_⟩
  · exact (is_wholesale_eligible_characterisation sampleProduct sampleSupplier 20).2.1
      (Or.inl rfl)
  · exact (is_wholesale_eligible_characterisation sampleProduct sampleSupplier 19).2.2.1
      (by decide) (Or.inl rfl)
  · exact (is_wholesale_eligible_characterisation sampleProduct sampleHoreca 20).2.2.2
      (by decide)

/-- C3 counterexample: on an already soft-deleted product,
`Product.soft_delete` does not fail and does not leave the entity
unchanged — it re-stamps `deleted_at` (there is no AlreadyDeleted guard in
`products/models.py`); and invoking the user soft-delete service on an
already soft-deleted user fails with "User not found" (the default-manager
lookup hides the row), not with an already-deleted error. -/
theorem soft_delete_already_deleted_counterexample :
    Product.soft_delete deletedProduct 7 ≠ deletedProduct
    ∧ (Product.soft_delete deletedProduct 7).deleted_at = some 7
    ∧ UserDeleteService.soft_delete [deletedUser] 55 9 =
        ([deletedUser], some "User not found") := by
  refine ⟨by decide, rfl, ?_⟩
  rfl

/-- C3 (amended): restore on a non-deleted entity is rejected with a
not-deleted error for both User (service) and Product (admin endpoint),
leaving the store unchanged; but soft_delete on an already-deleted entity
does not fail with AlreadyDeleted: the user service reports the target as
not found (still leaving the store unchanged), and the Product model
method completes, merely re-stamping `deleted_at` and clearing
availability. -/
theorem soft_delete_restore_state_errors (db : List User) (uid now : Nat) (u : User)
    (p : Product) (dbP : List Product) (a : User) (pid : Nat) (ao : Bool) :
    ((∀ v ∈ db, v.user_id = uid → v.is_deleted = true) →
      UserDeleteService.soft_delete db uid now = (db, some "User not found"))
    ∧ (db.find? (fun v => v.user_id == uid) = some u → u.is_deleted = false →
      UserDeleteService.restore db uid = (db, some "User is not deleted"))
    ∧ (p.is_deleted = true →
      Product.soft_delete p now = { p with deleted_at := some now, is_available := false })
    ∧ (a.role = UserTypes.ADMIN → ProductViewSet.get_object dbP pid ao = some p →
      ProductViewSet.restore dbP a pid ao = RestoreResult.notDeleted) := by
  refine ⟨?_, ?_, ?_, ?_⟩
  · intro h
    rw [UserDeleteService.soft_delete, get_by_id_none_of_all_deleted h]
  · intro hfind hnd
    rw [UserDeleteService.restore, UserManager.all_with_deleted, hfind]
    simp [hnd]
  · intro hdel
    simp [Product.soft_delete, hdel]
  · intro hrole hobj
    have hnd := get_object_not_deleted hobj
    rw [ProductViewSet.restore, if_neg (by simp [hrole]), hobj]
    simp [hnd]

/-- C3 witness: the amended theorem applied to a store holding one
soft-deleted user, one active user, the soft-deleted product and an
admin restoring an active product. -/
theorem soft_delete_restore_state_errors_witness :
    UserDeleteService.soft_delete [deletedUser] 55 9 = ([deletedUser], some "User not found")
    ∧ UserDeleteService.restore [sampleSupplier] 77 =
        ([sampleSupplier], some "User is not deleted")
    ∧ Product.soft_delete deletedProduct 9 =
        { deletedProduct with deleted_at := some 9, is_available := false }
    ∧ ProductViewSet.restore [sampleProduct] sampleAdmin 1 true =
        RestoreResult.notDeleted := by
  refine ⟨?_, ?_, ?_, ?_⟩
  · exact (soft_delete_restore_state_errors [deletedUser] 55 9 deletedUser sampleProduct
      [sampleProduct] sampleAdmin 1 true).1 (by decide)
  · exact (soft_delete_restore_state_errors [sampleSupplier] 77 9 sampleSupplier
      sampleProduct [sampleProduct] sampleAdmin 1 true).2.1 (by decide) rfl
  · exact (soft_delete_restore_state_errors [deletedUser] 55 9 deletedUser deletedProduct
      [sampleProduct] sampleAdmin 1 true).2.2.1 rfl
  · exact (soft_delete_restore_state_errors [deletedUser] 55 9 deletedUser sampleProduct
      [sampleProduct] sampleAdmin 1 true).2.2.2 rfl (by decide)

/-- C4 counterexample: a deactivated but not soft-deleted user (reachable
through the deactivate endpoint) is in the Active state of the lifecycle,
yet `restore (soft_delete u)` does not return it to its original field
state: `is_active` comes back `true` although it was `false`. -/
theorem soft_delete_restore_roundtrip_counterexample :
    deactivatedUser.is_deleted = false
    ∧ deactivatedUser.deleted_at = none
    ∧ deactivatedUser.is_active = false
    ∧ User.restore (User.soft_delete deactivatedUser 3) ≠ deactivatedUser
    ∧ (User.restore (User.soft_delete deactivatedUser 3)).is_active = true := by
  refine ⟨rfl, rfl, rfl, by decide, rfl⟩

/-- C4 (amended): for every entity in the Active state whose usability flag
is set and whose `deleted_at` is absent (the state every freshly created,
non-deactivated entity is in), `restore (soft_delete e)` returns the
entity exactly to its original field state, for both User and Product;
a deactivated-but-not-deleted entity instead comes back with its
usability flag forced to true. -/
theorem soft_delete_restore_roundtrip (u : User) (p : Product) (t s : Nat) :
    (u.is_deleted = false → u.deleted_at = none → u.is_active = true →
      User.restore (User.soft_delete u t) = u)
    ∧ (p.is_deleted = false → p.deleted_at = none → p.is_available = true →
      Product.restore (Product.soft_delete p s) = p) := by
  constructor
  · intro h1 h2 h3
    cases u
    simp_all [User.soft_delete, User.restore]
  · intro h1 h2 h3
    cases p
    simp_all [Product.soft_delete, Product.restore]

/-- C4 witness: the amended round-trip applied to a concrete active user
and a concrete active product. -/
theorem soft_delete_restore_roundtrip_witness :
    User.restore (User.soft_delete sampleSupplier 5) = sampleSupplier
    ∧ Product.restore (Product.soft_delete sampleProduct 5) = sampleProduct := by
  refine ⟨?_, ?_⟩
  · exact (soft_delete_restore_roundtrip sampleSupplier sampleProduct 5 5).1 rfl rfl rfl
  · exact (soft_delete_restore_roundtrip sampleSupplier sampleProduct 5 5).2 rfl rfl rfl

/-- C5: for a supplier-role requester, product creation is rejected exactly
when the submitted `wholesale_price` is strictly greater than the minimum
of the three retail prices, and accepted when it equals that minimum;
on (partial) update the same comparison runs on the resulting values,
each submitted field falling back to the stored instance value. -/
theorem wholesale_price_invariant_validation (role : String)
    (w b c hca : Int) (inst : Product) (ow ob oc oh : Option Int)
    (hrole : role = UserTypes.SUPPLIER ∨ role = UserTypes.SUPPLIER_MERCHANT) :
    ((ProductCreateSerializer.validate role w b c hca).isSome = true ↔
      w > min b (min c hca))
    ∧ (w = min b (min c hca) → ProductCreateSerializer.validate role w b c hca = none)
    ∧ ((ProductUpdateSerializer.validate inst ow ob oc oh).isSome = true ↔
      ow.getD inst.wholesale_price >
        min (ob.getD inst.retail_price_b2c)
          (min (oc.getD inst.retail_price_corporate) (oh.getD inst.retail_price_horeca)))
    ∧ (ow.getD inst.wholesale_price =
        min (ob.getD inst.retail_price_b2c)
          (min (oc.getD inst.retail_price_corporate) (oh.getD inst.retail_price_horeca)) →
      ProductUpdateSerializer.validate inst ow ob oc oh = none) := by
  have hsupp : ¬¬(role = UserTypes.SUPPLIER ∨ role = UserTypes.SUPPLIER_MERCHANT) :=
    not_not_intro hrole
  refine ⟨?_, ?_, ?_, ?_⟩
  · rw [ProductCreateSerializer.validate, if_neg hsupp]
    split
    · rename_i hgt
      simpa using hgt
    · rename_i hgt
      simpa using hgt
  · intro heq
    rw [ProductCreateSerializer.validate, if_neg hsupp, heq, if_neg (lt_irrefl _)]
  · simp only [ProductUpdateSerializer.validate]
    split
    · rename_i hgt
      simpa using hgt
    · rename_i hgt
      simpa using hgt
  · intro heq
    simp only [ProductUpdateSerializer.validate]
    rw [heq, if_neg (lt_irrefl _)]

/-- C5 witness: a supplier creating at exactly the minimum retail price is
accepted, one unit above it is rejected; a partial update leaving the
stored values produces the same comparison on the resulting state. -/
theorem wholesale_price_invariant_validation_witness :
    ProductCreateSerializer.validate UserTypes.SUPPLIER 135 140 138 135 = none
    ∧ (ProductCreateSerializer.validate UserTypes.SUPPLIER 136 140 138 135).isSome = true
    ∧ ProductUpdateSerializer.validate sampleProduct (some 135) none none none = none
    ∧ (ProductUpdateSerializer.validate sampleProduct (some 136) none none none).isSome
        = true := by
  refine ⟨?_, ?_, ?_, ?_⟩
  · exact (wholesale_price_invariant_validation UserTypes.SUPPLIER 135 140 138 135
      sampleProduct none none none none (Or.inl rfl)).2.1 (by decide)
  · exact (wholesale_price_invariant_validation UserTypes.SUPPLIER 136 140 138 135
      sampleProduct none none none none (Or.inl rfl)).1.mpr (by decide)
  · exact (wholesale_price_invariant_validation UserTypes.SUPPLIER 136 140 138 135
      sampleProduct (some 135) none none none (Or.inl rfl)).2.2.2 (by decide)
  · exact (wholesale_price_invariant_validation UserTypes.SUPPLIER 136 140 138 135
      sampleProduct (some 136) none none none (Or.inl rfl)).2.2.1.mpr (by decide)

/-- C6: registration validation errs exactly for Corporate with a missing
or empty `company_name` and for HoReCa/Supplier/SupplierMerchant with a
missing or empty `business_type` (role defaulting to B2CVisitor), and is
Ok for every other role; on partial update, validation errs only when the
payload field is blank AND the stored record also lacks the field, so only
the net state is blocked from lacking a required field. -/
theorem role_field_validation (role company business : Option String) (inst : User)
    (urole ucompany ubusiness : Option String) :
    ((UserRegisterSerializer.validate role company business).isSome = true ↔
      ((role.getD UserTypes.B2C_VISITOR = UserTypes.CORPORATE ∧ pyBlank company = true) ∨
        ((role.getD UserTypes.B2C_VISITOR = UserTypes.HORECA ∨
            role.getD UserTypes.B2C_VISITOR = UserTypes.SUPPLIER ∨
            role.getD UserTypes.B2C_VISITOR = UserTypes.SUPPLIER_MERCHANT) ∧
          pyBlank business = true)))
    ∧ ((UserUpdateSerializer.validate inst urole ucompany ubusiness).isSome = true ↔
      (pyBlank urole = false ∧
        ((urole.getD "" = UserTypes.CORPORATE ∧ pyBlank ucompany = true ∧
            pyBlank inst.company_name = true) ∨
          ((urole.getD "" = UserTypes.HORECA ∨ urole.getD "" = UserTypes.SUPPLIER ∨
              urole.getD "" = UserTypes.SUPPLIER_MERCHANT) ∧ pyBlank ubusiness = true ∧
            pyBlank inst.business_type = true))))
    ∧ ((UserUpdateSerializer.validate inst urole ucompany ubusiness).isSome = true →
      (pyBlank ucompany = true ∧ pyBlank inst.company_name = true) ∨
        (pyBlank ubusiness = true ∧ pyBlank inst.business_type = true)) := by
  have hupd : (UserUpdateSerializer.validate inst urole ucompany ubusiness).isSome = true ↔
      (pyBlank urole = false ∧
        ((urole.getD "" = UserTypes.CORPORATE ∧ pyBlank ucompany = true ∧
            pyBlank inst.company_name = true) ∨
          ((urole.getD "" = UserTypes.HORECA ∨ urole.getD "" = UserTypes.SUPPLIER ∨
              urole.getD "" = UserTypes.SUPPLIER_MERCHANT) ∧ pyBlank ubusiness = true ∧
            pyBlank inst.business_type = true))) := by
    simp only [UserUpdateSerializer.validate]
    split
    · rename_i h
      simp [h]
    · rename_i h
      have hf : pyBlank urole = false := by
        cases hb : pyBlank urole
        · rfl
        · exact absurd hb h
      split
      · rename_i h1
        simp [hf, h1]
      · split
        · rename_i h1 h2
          simp [hf, h2]
        · rename_i h1 h2
          simp [hf, h1, h2]
  refine ⟨?_, hupd, ?_⟩
  · simp only [UserRegisterSerializer.validate]
    split
    · rename_i h1
      exact iff_of_true rfl (Or.inl h1)
    · split
      · rename_i h1 h2
        exact iff_of_true rfl (Or.inr h2)
      · rename_i h1 h2
        refine iff_of_false (by simp) ?_
        rintro (hc | hb)
        · exact h1 hc
        · exact h2 hb
  · intro h
    rcases (hupd.mp h).2 with ⟨-, hc, hi⟩ | ⟨-, hb, hi⟩
    · exact Or.inl ⟨hc, hi⟩
    · exact Or.inr ⟨hb, hi⟩

/-- C6 witness: a Corporate registration without a company name is
rejected and one with a company name accepted; an update that sets the
Corporate role against a stored record lacking a company name shows both
the blank payload field and the blank stored field. -/
theorem role_field_validation_witness :
    (UserRegisterSerializer.validate (some UserTypes.CORPORATE) none none).isSome = true
    ∧ (UserRegisterSerializer.validate (some UserTypes.CORPORATE) (some "Acme")
        none).isSome = false
    ∧ ((pyBlank (none : Option String) = true ∧ pyBlank bareCorporate.company_name = true) ∨
        (pyBlank (none : Option String) = true ∧ pyBlank bareCorporate.business_type = true)) := by
  have h := role_field_validation (some UserTypes.CORPORATE) none none bareCorporate
    (some UserTypes.CORPORATE) none none
  have h2 := role_field_validation (some UserTypes.CORPORATE) (some "Acme") none
    bareCorporate (some UserTypes.CORPORATE) none none
  refine ⟨h.1.mpr (by decide), ?_, h.2.2 (by decide)⟩
  cases hb : (UserRegisterSerializer.validate (some UserTypes.CORPORATE) (some "Acme")
      none).isSome
  · rfl
  · exact absurd (h2.1.mp hb) (by decide)

/-- C7: the product update and destroy guards allow a principal exactly
when the role is Supplier, SupplierMerchant or Admin and, for non-Admin
roles, the product's supplier FK is the principal; a supplier acting on
another supplier's product is denied while an admin acting on the same
product is allowed.  Both endpoints use the identical condition. -/
theorem product_modify_authorization (u : User) (p : Product) :
    (ProductViewSet.updateDenied u p = false ↔
      ((u.role = UserTypes.SUPPLIER ∨ u.role = UserTypes.SUPPLIER_MERCHANT ∨
          u.role = UserTypes.ADMIN) ∧
        (u.role ≠ UserTypes.ADMIN → p.supplier = u.id)))
    ∧ ProductViewSet.destroyDenied u p = ProductViewSet.updateDenied u p
    ∧ (u.role = UserTypes.SUPPLIER → p.supplier ≠ u.id →
        ProductViewSet.updateDenied u p = true ∧ ProductViewSet.destroyDenied u p = true)
    ∧ (u.role = UserTypes.ADMIN →
        ProductViewSet.updateDenied u p = false ∧
          ProductViewSet.destroyDenied u p = false) := by
  have hdu : ProductViewSet.destroyDenied u p = ProductViewSet.updateDenied u p := rfl
  have hiff : ProductViewSet.updateDenied u p = false ↔
      ((u.role = UserTypes.SUPPLIER ∨ u.role = UserTypes.SUPPLIER_MERCHANT ∨
          u.role = UserTypes.ADMIN) ∧
        (u.role ≠ UserTypes.ADMIN → p.supplier = u.id)) := by
    have hSA : UserTypes.SUPPLIER ≠ UserTypes.ADMIN := by decide
    have hMA : UserTypes.SUPPLIER_MERCHANT ≠ UserTypes.ADMIN := by decide
    simp only [ProductViewSet.updateDenied, Bool.or_eq_false_iff, Bool.not_eq_false',
      Bool.and_eq_false_iff, decide_eq_true_eq, decide_eq_false_iff_not,
      Bool.not_eq_false, beq_iff_eq]
    constructor
    · rintro ⟨hmem, hrest⟩
      refine ⟨hmem, fun hne => ?_⟩
      rcases hrest with hnot | heq
      · rcases hmem with h | h | h
        · exact absurd (Or.inl h) hnot
        · exact absurd (Or.inr h) hnot
        · exact absurd h hne
      · exact heq
    · rintro ⟨hmem, himp⟩
      refine ⟨hmem, ?_⟩
      by_cases hA : u.role = UserTypes.ADMIN
      · left
        rintro (h | h)
        · exact hSA (h.symm.trans hA)
        · exact hMA (h.symm.trans hA)
      · right
        exact himp hA
  refine ⟨hiff, hdu, ?_, ?_⟩
  · intro hS hneq
    have hne : ProductViewSet.updateDenied u p ≠ false := by
      intro hf
      exact hneq ((hiff.mp hf).2 (by rw [hS]; decide))
    have ht : ProductViewSet.updateDenied u p = true := by
      cases hb : ProductViewSet.updateDenied u p
      · exact absurd hb hne
      · rfl
    exact ⟨ht, hdu.trans ht⟩
  · intro hA
    have hf : ProductViewSet.updateDenied u p = false :=
      hiff.mpr ⟨Or.inr (Or.inr hA), fun hne => absurd hA hne⟩
    exact ⟨hf, hdu.trans hf⟩

/-- C7 witness: the spec's §8 scenario — supplier 7 acting on a product
whose supplier FK is user 8 is denied for both update and destroy, while
an admin acting on that same product is allowed. -/
theorem product_modify_authorization_witness :
    ProductViewSet.updateDenied sampleSupplier otherSuppliersProduct = true
    ∧ ProductViewSet.destroyDenied sampleSupplier otherSuppliersProduct = true
    ∧ ProductViewSet.updateDenied sampleAdmin otherSuppliersProduct = false
    ∧ ProductViewSet.destroyDenied sampleAdmin otherSuppliersProduct = false := by
  have h := product_modify_authorization sampleSupplier otherSuppliersProduct
  have h2 := product_modify_authorization sampleAdmin otherSuppliersProduct
  refine ⟨(h.2.2.1 rfl (by decide)).1, (h.2.2.1 rfl (by decide)).2,
    (h2.2.2.2 rfl).1, (h2.2.2.2 rfl).2⟩

/-- C8: the restore-product endpoint 403s non-admins and 400s a found
non-deleted target, but for an admin and a currently soft-deleted target
it answers NotFound instead of succeeding: `get_object` resolves over the
`is_deleted=False` queryset, so no soft-deleted product is ever reachable
and the endpoint can never return a restored product, with or without the
`available_only` filter. -/
theorem product_restore_unreachable :
    deletedProduct.is_deleted = true
    ∧ sampleAdmin.role = UserTypes.ADMIN
    ∧ ProductViewSet.restore [deletedProduct] sampleAdmin deletedProduct.id true =
        RestoreResult.notFound
    ∧ ProductViewSet.restore [deletedProduct] sampleAdmin deletedProduct.id false =
        RestoreResult.notFound
    ∧ ProductViewSet.restore [deletedProduct] sampleHoreca deletedProduct.id true =
        RestoreResult.forbidden
    ∧ (∀ (db : List Product) (u : User) (pid : Nat) (ao : Bool) (q : Product),
        ProductViewSet.restore db u pid ao ≠ RestoreResult.restored q) := by
  refine ⟨rfl, rfl, by decide, by decide, by decide, ?_⟩
  intro db u pid ao q h
  rw [ProductViewSet.restore] at h
  split at h
  · exact RestoreResult.noConfusion h
  · rename_i hrole
    rcases hobj : ProductViewSet.get_object db pid ao with _ | product
    · rw [hobj] at h
      exact RestoreResult.noConfusion h
    · rw [hobj] at h
      have hnd := get_object_not_deleted hobj
      simp [hnd] at h

/-- C8 witness: the impossibility statement instantiated at the concrete
store holding only the soft-deleted product. -/
theorem product_restore_unreachable_witness :
    ProductViewSet.restore [deletedProduct] sampleAdmin 2 true ≠
      RestoreResult.restored (Product.restore deletedProduct) :=
  product_restore_unreachable.2.2.2.2.2 [deletedProduct] sampleAdmin 2 true
    (Product.restore deletedProduct)

/-- C9: the admin-role immutability guard exists only in
`UserRoleSerializer.validate_role`, which no exposed view uses; the
exposed PATCH user endpoint (`UserViewSet.partial_update`, modelled as
`patch_update`) validates with `UserUpdateSerializer`, which has no such
guard, so it downgrades an admin's role to b2c_visitor. -/
theorem admin_role_downgrade_reachable :
    sampleAdmin.role = UserTypes.ADMIN
    ∧ UserRoleSerializer.validate_role (some sampleAdmin) UserTypes.B2C_VISITOR =
        some "Cannot change admin user role."
    ∧ UserViewSet.patch_update [sampleAdmin] sampleAdmin.user_id
        (some UserTypes.B2C_VISITOR) none none =
        UpdateResult.updated { sampleAdmin with role := UserTypes.B2C_VISITOR }
    ∧ ({ sampleAdmin with role := UserTypes.B2C_VISITOR } : User).role ≠
        UserTypes.ADMIN := by
  refine ⟨rfl, by decide, by decide, by decide⟩

/-- C10: every lookup through `UserRepository.get_by_id` only ever yields a
non-deleted user, so the update, deactivate, soft-delete and hard-delete
services all report a soft-deleted target as not found; in particular the
"already deleted" branch of the soft-delete service is unreachable, while
the restore service, querying `all_with_deleted`, does find a soft-deleted
user and restores it. -/
theorem soft_deleted_user_invisible_to_get_by_id (db : List User) (uid : Nat) (u : User)
    (now : Nat) (role company business : Option String) :
    (UserRepository.get_by_id db uid = some u → u.is_deleted = false)
    ∧ ((∀ v ∈ db, v.user_id = uid → v.is_deleted = true) →
        UserDeleteService.soft_delete db uid now = (db, some "User not found")
        ∧ UserUpdateService.update db uid role company business = (db, some "User not found.")
        ∧ UserActivationService.deactivate db uid = (db, some "User not found.")
        ∧ UserDeleteService.hard_delete db uid = (db, some "User not found"))
    ∧ ((UserDeleteService.soft_delete db uid now).2 ≠ some "User is already deleted")
    ∧ (db.find? (fun v => v.user_id == uid) = some u → u.is_deleted = true →
        (UserDeleteService.restore db uid).2 = none) := by
  refine ⟨fun h => get_by_id_not_deleted h, ?_, ?_, ?_⟩
  · intro h
    have hnone := get_by_id_none_of_all_deleted h
    refine ⟨?_, ?_, ?_, ?_⟩
    · rw [UserDeleteService.soft_delete, hnone]
    · rw [UserUpdateService.update, hnone]
    · rw [UserActivationService.deactivate, hnone]
    · rw [UserDeleteService.hard_delete, hnone]
  · rw [UserDeleteService.soft_delete]
    rcases hid : UserRepository.get_by_id db uid with _ | v
    · simp
    · have hnd := get_by_id_not_deleted hid
      simp [hnd]
  · intro hfind hdel
    rw [UserDeleteService.restore, UserManager.all_with_deleted, hfind]
    simp [hdel]

/-- C10 witness: a store holding exactly one soft-deleted user — every
`get_by_id`-based service says not found, and the restore service
succeeds. -/
theorem soft_deleted_user_invisible_witness :
    UserDeleteService.soft_delete [deletedUser] 55 9 = ([deletedUser], some "User not found")
    ∧ UserActivationService.deactivate [deletedUser] 55 = ([deletedUser], some "User not found.")
    ∧ UserDeleteService.hard_delete [deletedUser] 55 = ([deletedUser], some "User not found")
    ∧ (UserDeleteService.restore [deletedUser] 55).2 = none := by
  have h := soft_deleted_user_invisible_to_get_by_id [deletedUser] 55 deletedUser 9
    none none none
  have hall := h.2.1 (by decide)
  exact ⟨hall.1, hall.2.2.1, hall.2.2.2, h.2.2.2 (by decide) rfl⟩

end CTB
